import Mathlib

/-!
Verification of the Cascaded-Shadow-Map (CSM) subsystem of the BabylonDev
repository: the `CSMShadowGenerator` class and the `MinMaxReducer` reduction
pipeline.  The TypeScript source is shallowly embedded: class state becomes a
structure, methods become functions from state to state (methods that write
GPU uniforms additionally return the list of emitted binding commands), and
JavaScript numbers are modelled as real numbers (handles to external GPU
objects such as matrices and textures are modelled as naturals).
-/

namespace BabylonDev

/-! ## Meshes and the shadow-caster list

A Babylon scene mesh, reduced to what `addShadowCaster` / `removeShadowCaster`
consume: an identity and the child-mesh forest.  Structural equality of this
tree stands for JavaScript reference equality (`indexOf` in the source); the
scene graph is acyclic, so a finite tree is a faithful model. -/

inductive Mesh where
  | mk (id : ℕ) (children : List Mesh)

/-- Identity component of a mesh. -/
def Mesh.id : Mesh → ℕ
  | .mk i _ => i

/-- Direct children, as returned by `mesh.getChildren()`. -/
def Mesh.getChildren : Mesh → List Mesh
  | .mk _ cs => cs

mutual

/-- Structural (reference) equality test on meshes. -/
def Mesh.beq : Mesh → Mesh → Bool
  | .mk i cs, .mk j ds => i == j && Mesh.beqList cs ds

/-- Pointwise `Mesh.beq` on child lists. -/
def Mesh.beqList : List Mesh → List Mesh → Bool
  | [], [] => true
  | a :: as, b :: bs => Mesh.beq a b && Mesh.beqList as bs
  | _, _ => false

end

instance : BEq Mesh := ⟨Mesh.beq⟩

mutual

theorem Mesh.beq_refl : ∀ (a : Mesh), Mesh.beq a a = true
  | .mk i cs => by simp [Mesh.beq, Mesh.beqList_refl cs]

theorem Mesh.beqList_refl : ∀ (l : List Mesh), Mesh.beqList l l = true
  | [] => rfl
  | a :: as => by simp [Mesh.beqList, Mesh.beq_refl a, Mesh.beqList_refl as]

end

mutual

theorem Mesh.eq_of_beq : ∀ {a b : Mesh}, Mesh.beq a b = true → a = b
  | .mk i cs, .mk j ds, h => by
    simp only [Mesh.beq, Bool.and_eq_true, beq_iff_eq] at h
    obtain ⟨h1, h2⟩ := h
    rw [h1, Mesh.eqList_of_beqList h2]

theorem Mesh.eqList_of_beqList : ∀ {l m : List Mesh}, Mesh.beqList l m = true → l = m
  | [], [], _ => rfl
  | a :: as, b :: bs, h => by
    simp only [Mesh.beqList, Bool.and_eq_true] at h
    rw [Mesh.eq_of_beq h.1, Mesh.eqList_of_beqList h.2]

end

instance : LawfulBEq Mesh where
  rfl := Mesh.beq_refl _
  eq_of_beq := Mesh.eq_of_beq

mutual

/-- All descendants of a mesh, in preorder (`mesh.getChildMeshes()` with the
Babylon default `directDescendantsOnly = false`). -/
def Mesh.descendants : Mesh → List Mesh
  | .mk _ cs => Mesh.descendantsList cs

/-- All members of a forest together with their descendants. -/
def Mesh.descendantsList : List Mesh → List Mesh
  | [] => []
  | c :: rest => c :: (Mesh.descendants c ++ Mesh.descendantsList rest)

end

/-- Alias matching the source call `mesh.getChildMeshes()`. -/
def Mesh.getChildMeshes (m : Mesh) : List Mesh := Mesh.descendants m

/-- Erasing a freshly appended element returns a permutation of the original
list: `indexOf` + `splice(index, 1)` removes exactly one occurrence. -/
theorem erase_append_singleton_perm (l : List Mesh) (m : Mesh) :
    List.Perm ((l ++ [m]).erase m) l := by
  induction l with
  | nil => simp
  | cons a as ih =>
    by_cases h : m = a
    · subst h
      rw [List.cons_append, List.erase_cons_head]
      exact List.perm_append_singleton m as
    · rw [List.cons_append, List.erase_cons_tail]
      · exact ih.cons a
      · simp only [beq_iff_eq]
        exact fun hh => h hh.symm

/-! ## MinMaxReducer: the reduction pass chain

`MinMaxReducer.setSourceTexture` pushes one initial full-resolution pass and
then loops `while (w > 1 || h > 1)`, halving both dimensions
(`w = Math.max(Math.round(w / 2), 1)`) and pushing one pass per iteration,
whose shader define is `LAST` when both dimensions reached 1,
`ONEBEFORELAST` when exactly one did, and `MAIN` otherwise.  The model below
records, per pass, the dimensions fed to its `texSize` uniform and its
define. -/

/-- Shader define selected for a reduction pass (the `#define` string of the
`PostProcess` constructor call).  The initial pass also records whether
`DEPTH_REDUX` was appended. -/
inductive ReductionDefine where
  | INITIAL (depthRedux : Bool)
  | MAIN
  | ONEBEFORELAST
  | LAST
deriving DecidableEq

/-- One reduction `PostProcess` descriptor: its dimensions and its define. -/
structure ReductionPass where
  width : ℕ
  height : ℕ
  define : ReductionDefine
deriving DecidableEq

namespace MinMaxReducer

/-- One halving step of the loop: `Math.max(Math.round(w / 2), 1)`.  On a
natural number `w`, `Math.round(w / 2)` (round half away from zero) equals
`(w + 1) / 2` in integer division. -/
def halveDim (w : ℕ) : ℕ := max ((w + 1) / 2) 1

theorem halveDim_pos (w : ℕ) : 1 ≤ halveDim w := le_max_right _ _

theorem halveDim_le (w : ℕ) (hw : 1 ≤ w) : halveDim w ≤ w := by
  simp only [halveDim]; omega

theorem halveDim_lt (w : ℕ) (hw : 1 < w) : halveDim w < w := by
  simp only [halveDim]; omega

/-- Define chosen for a loop-built pass from its (already halved) dimensions:
`(w == 1 && h == 1) ? 'LAST' : (w == 1 || h == 1) ? 'ONEBEFORELAST' : 'MAIN'`. -/
def stepDefine (w h : ℕ) : ReductionDefine :=
  if w = 1 ∧ h = 1 then .LAST
  else if w = 1 ∨ h = 1 then .ONEBEFORELAST
  else .MAIN

/-- The passes pushed by the `while (w > 1 || h > 1)` loop of
`setSourceTexture`, starting from current dimensions `(w, h)`. -/
def buildReductionSteps (w h : ℕ) : List ReductionPass :=
  if 1 < w ∨ 1 < h then
    ⟨halveDim w, halveDim h, stepDefine (halveDim w) (halveDim h)⟩ ::
      buildReductionSteps (halveDim w) (halveDim h)
  else []
termination_by (w - 1) + (h - 1)
decreasing_by
  simp only [halveDim]
  omega

/-- The whole `_reductionSteps` array built by `setSourceTexture` for a source
texture of render size `w × h`: the `INITIAL` pass followed by the loop-built
chain. -/
def setSourceTextureSteps (w h : ℕ) (depthRedux : Bool) : List ReductionPass :=
  ⟨w, h, .INITIAL depthRedux⟩ :: buildReductionSteps w h

/-- Every loop-built pass carries the define computed from its own dimensions,
and its dimensions are at least 1. -/
theorem buildReductionSteps_define (w h : ℕ) :
    ∀ p ∈ buildReductionSteps w h,
      p.define = stepDefine p.width p.height ∧ 1 ≤ p.width ∧ 1 ≤ p.height := by
  induction w, h using buildReductionSteps.induct with
  | case1 w h hcond ih =>
    rw [buildReductionSteps, if_pos hcond]
    intro p hp
    rcases List.mem_cons.mp hp with h1 | h2
    · subst h1
      exact ⟨rfl, halveDim_pos w, halveDim_pos h⟩
    · exact ih p h2
  | case2 w h hcond =>
    rw [buildReductionSteps, if_neg hcond]
    intro p hp
    exact absurd hp (List.not_mem_nil p)

theorem getLast?_cons_ne_nil {α : Type} (a : α) (l : List α) (h : l ≠ []) :
    (a :: l).getLast? = l.getLast? := by
  cases l with
  | nil => exact absurd rfl h
  | cons b bs => rfl

/-- The loop terminates exactly at dimensions `(1, 1)`: the last loop-built
pass is the 1×1 `LAST` pass, when the loop runs at all. -/
theorem buildReductionSteps_getLast (w h : ℕ) (hw : 1 ≤ w) (hh : 1 ≤ h)
    (hbig : 1 < w ∨ 1 < h) :
    (buildReductionSteps w h).getLast? = some ⟨1, 1, .LAST⟩ := by
  induction w, h using buildReductionSteps.induct with
  | case1 w h hcond ih =>
    rw [buildReductionSteps, if_pos hcond]
    by_cases hone : halveDim w = 1 ∧ halveDim h = 1
    · have hempty : buildReductionSteps (halveDim w) (halveDim h) = [] := by
        rw [buildReductionSteps, if_neg]
        omega
      rw [hone.1, hone.2] at hempty ⊢
      rw [hempty]
      simp [stepDefine]
    · have hbig2 : 1 < halveDim w ∨ 1 < halveDim h := by
        have := halveDim_pos w
        have := halveDim_pos h
        omega
      have hrec := ih (halveDim_pos w) (halveDim_pos h) hbig2
      have hne : buildReductionSteps (halveDim w) (halveDim h) ≠ [] := by
        intro hnil
        rw [hnil] at hrec
        simp at hrec
      rw [getLast?_cons_ne_nil _ _ hne]
      exact hrec
  | case2 w h hcond =>
    exact absurd hbig hcond

/-- Exactly one loop-built pass is tagged `LAST` whenever the loop runs. -/
theorem buildReductionSteps_count_LAST (w h : ℕ) (hw : 1 ≤ w) (hh : 1 ≤ h) :
    ((buildReductionSteps w h).filter (fun p => p.define = .LAST)).length =
      (if 1 < w ∨ 1 < h then 1 else 0) := by
  induction w, h using buildReductionSteps.induct with
  | case1 w h hcond ih =>
    rw [buildReductionSteps, if_pos hcond, if_pos hcond]
    have hw2 := halveDim_pos w
    have hh2 := halveDim_pos h
    by_cases hone : halveDim w = 1 ∧ halveDim h = 1
    · have hempty : buildReductionSteps (halveDim w) (halveDim h) = [] := by
        rw [buildReductionSteps, if_neg]
        omega
      rw [List.filter_cons, hempty]
      rw [hone.1, hone.2]
      simp [stepDefine]
    · have hbig2 : 1 < halveDim w ∨ 1 < halveDim h := by omega
      have hrec := ih hw2 hh2
      rw [if_pos hbig2] at hrec
      rw [List.filter_cons]
      have hdef : stepDefine (halveDim w) (halveDim h) ≠ .LAST := by
        simp only [stepDefine]
        rw [if_neg hone]
        split <;> simp
      simp only [decide_eq_true_eq]
      rw [if_neg hdef]
      exact hrec
  | case2 w h hcond =>
    rw [buildReductionSteps, if_neg hcond, if_neg hcond]
    simp

/-- Consecutive passes of the full `_reductionSteps` chain (initial pass
included) have dimensions related by the halving step. -/
theorem setSourceTextureSteps_chain (w h : ℕ) (depthRedux : Bool) :
    List.Chain' (fun p q => q.width = halveDim p.width ∧ q.height = halveDim p.height)
      (setSourceTextureSteps w h depthRedux) := by
  rw [setSourceTextureSteps]
  suffices hgen : ∀ d, List.Chain'
      (fun p q => q.width = halveDim p.width ∧ q.height = halveDim p.height)
      (ReductionPass.mk w h d :: buildReductionSteps w h) from hgen _
  induction w, h using buildReductionSteps.induct with
  | case1 w h hcond ih =>
    intro d
    rw [buildReductionSteps, if_pos hcond]
    exact List.Chain'.cons ⟨rfl, rfl⟩ (ih _)
  | case2 w h hcond =>
    intro d
    rw [buildReductionSteps, if_neg hcond]
    simp

end MinMaxReducer

/-! ## CSMShadowGenerator: data model

State of the `CSMShadowGenerator` class together with the slice of its
collaborators it reads (scene flags, active camera, light flags).  JavaScript
numbers are modelled as `ℝ`; GPU object identities (matrices, textures) as
`ℕ` handles.  The per-cascade renderer `CSMShadowMap` lives in
`csmShadowMap.ts`, which is not part of the sources: only the property
surface that `CSMShadowGenerator` reads and writes is modelled, and its
`prepareDefines` is carried as an abstract transformation of the define
table. -/

/-- Active camera of the scene: its near (`minZ`) and far (`maxZ`) planes. -/
structure Camera where
  minZ : ℝ
  maxZ : ℝ

/-- A render-target texture handle with the width reported by `getSize()`. -/
structure ShadowMapTexture where
  id : ℕ
  width : ℝ

/-- Value stored in a `MaterialDefines` table (booleans and integers are the
only kinds this generator writes). -/
inductive DefineValue where
  | b (v : Bool)
  | n (v : ℤ)

/-- A `MaterialDefines` table: a map from define name to value. -/
def Defines : Type := String → Option DefineValue

/-- The table update `defines[k] = v`. -/
def Defines.set (d : Defines) (k : String) (v : DefineValue) : Defines :=
  fun k2 => if k2 = k then some v else d k2

/-- Per-cascade shadow-map renderer (class `CSMShadowMap`, external to the
sources): its settable filtering/bias properties, its matrices and shadow-map
textures as handles, and its `prepareDefines` as an abstract define-table
transformation. -/
structure CSMShadowMap where
  bias : ℝ
  normalBias : ℝ
  blurBoxOffset : ℝ
  blurScale : ℝ
  blurKernel : ℝ
  useKernelBlur : Bool
  depthScale : ℝ
  filter : ℝ
  filteringQuality : ℝ
  contactHardeningLightSizeUVRatio : ℝ
  darkness : ℝ
  transparencyShadow : Bool
  forceBackFacesOnly : Bool
  depthClamp : Bool
  frustumEdgeFalloff : ℝ
  viewMatrix : ℕ
  transformMatrix : ℕ
  shadowMap : Option ShadowMapTexture
  shadowMapForRendering : Option ShadowMapTexture
  prepareDefinesImpl : Defines → ℤ → Defines

/-- Babylon `ShadowGenerator.FILTER_PCF`. -/
def FILTER_PCF : ℝ := 6

/-- Babylon `ShadowGenerator.FILTER_PCSS`. -/
def FILTER_PCSS : ℝ := 7

/-- The `ICascade` record: one per cascade. -/
structure Cascade where
  generator : CSMShadowMap
  prevSplitDistance : ℝ
  splitDistance : ℝ

/-- The `CSMShadowGenerator.CASCADE_ALL` sentinel. -/
def CASCADE_ALL : ℤ := -1

/-- State of a `CSMShadowGenerator` plus the collaborator state it reads:
scene/light flags, the active camera, and the light's depth range for the
current camera. -/
structure CSMShadowGenerator where
  activeCascade : ℤ
  numCascades : ℤ
  lambda : ℝ
  minDistance : ℝ
  maxDistance : ℝ
  stabilizeCascades : Bool
  useRightDirectionAsUpForOrthoProj : Bool
  freezeShadowCastersBoundingInfo : Bool
  freezeObserverAttached : Bool
  debug : Bool
  cascades : List Cascade
  renderList : List Mesh
  sceneShadowsEnabled : Bool
  lightShadowEnabled : Bool
  lightNeedCube : Bool
  camera : Option Camera
  lightDepthMinZ : ℝ
  lightDepthMaxZ : ℝ
  lightMatrices : List ℕ
  samplers : List (Option ℕ)
  cascadeDepths : List ℝ

/-- One command emitted toward the shader-binding target (`Effect` setters
and the light's uniform-buffer updates) by `bindShadowLight`. -/
inductive EffectCommand where
  | setDepthStencilTexture (name : String) (texture : Option ℕ)
  | setMatrices (name : String) (buffer : List ℕ)
  | setInt (name : String) (value : ℤ)
  | setTextureArray (name : String) (textures : List (Option ℕ))
  | setArray (name : String) (values : List ℝ)
  | updateFloat4 (name : String) (x y z w : ℝ) (lightIndex : String)
  | updateFloat2 (name : String) (x y : ℝ) (lightIndex : String)

namespace CSMShadowGenerator

noncomputable section

/-- Split depth of cascade `i` as a fraction of the camera range, exactly as
computed inside the loop of `setDistanceSplit`:
`p = (i+1)/numCascades`, `log = minZ * ratio^p`, `uniform = minZ + range*p`,
`d = lambda*(log - uniform) + uniform`, result `(d - near)/cameraRange`. -/
def computeSplitDistance (near far lambda minDistance maxDistance : ℝ)
    (numCascades : ℤ) (i : ℕ) : ℝ :=
  let cameraRange := far - near
  let minZ := near + minDistance * cameraRange
  let maxZ := near + maxDistance * cameraRange
  let range := maxZ - minZ
  let ratio := maxZ / minZ
  let p := ((i : ℝ) + 1) / (numCascades : ℝ)
  let logSplit := minZ * ratio ^ p
  let uniform := minZ + range * p
  let d := lambda * (logSplit - uniform) + uniform
  (d - near) / cameraRange

/-- The `for` loop of `setDistanceSplit`: rewrites `prevSplitDistance` and
`splitDistance` of each cascade in index order.  `prevSplitDistance` of
cascade `i > 0` reads `splitDistance` of cascade `i-1` after the latter was
rewritten, i.e. the freshly computed value. -/
def updateSplits (near far lambda minDistance maxDistance : ℝ) (numCascades : ℤ) :
    List Cascade → ℕ → List Cascade
  | [], _ => []
  | c :: rest, i =>
    { c with
      prevSplitDistance :=
        if i = 0 then minDistance
        else computeSplitDistance near far lambda minDistance maxDistance numCascades (i - 1),
      splitDistance :=
        computeSplitDistance near far lambda minDistance maxDistance numCascades i } ::
      updateSplits near far lambda minDistance maxDistance numCascades rest (i + 1)

/-- Method `setDistanceSplit()`: a no-op without an active camera, otherwise
rewrites every cascade's split fractions from the current parameters. -/
def setDistanceSplit (st : CSMShadowGenerator) : CSMShadowGenerator :=
  match st.camera with
  | none => st
  | some camera =>
    { st with
      cascades := updateSplits camera.minZ camera.maxZ st.lambda st.minDistance
        st.maxDistance st.numCascades st.cascades 0 }

/-- Setter `lambda`: stores the value and recomputes the splits. -/
def set_lambda (st : CSMShadowGenerator) (value : ℝ) : CSMShadowGenerator :=
  setDistanceSplit { st with lambda := value }

/-- Setter `minDistance`: stores the value (the source does not recompute the
splits here). -/
def set_minDistance (st : CSMShadowGenerator) (m : ℝ) : CSMShadowGenerator :=
  { st with minDistance := m }

/-- Setter `maxDistance` (its parameter is named `min` in the source): stores
the value (the source does not recompute the splits here). -/
def set_maxDistance (st : CSMShadowGenerator) (m : ℝ) : CSMShadowGenerator :=
  { st with maxDistance := m }

/-- Setter `activeCascade`: any index other than `CASCADE_ALL` that is
negative or at least `numCascades` is replaced by 0 before being stored. -/
def set_activeCascade (st : CSMShadowGenerator) (index : ℤ) : CSMShadowGenerator :=
  if index ≠ CASCADE_ALL ∧ (index < 0 ∨ st.numCascades ≤ index) then
    { st with activeCascade := 0 }
  else
    { st with activeCascade := index }

/-- Method `_getActiveCascades(forceAll)`, returning the selected cascades as
indices into `_cascades` (the source returns the cascade objects themselves,
which alias `_cascades`).  In the source `forceAll` defaults to `true` and
every property-setter call site passes no argument. -/
def getActiveCascades (st : CSMShadowGenerator) (forceAll : Bool) : List ℕ :=
  if st.activeCascade = CASCADE_ALL ∨ forceAll = true then
    List.range st.cascades.length
  else if 0 ≤ st.activeCascade ∧ st.activeCascade < (st.cascades.length : ℤ) then
    [st.activeCascade.toNat]
  else []

/-- Applies `f` to the cascades at the selected indices (the
`forEach (cascade => mutate cascade)` pattern of every property setter). -/
def applySelected (sel : List ℕ) (f : Cascade → Cascade) :
    List Cascade → ℕ → List Cascade
  | [], _ => []
  | c :: rest, i => (if i ∈ sel then f c else c) :: applySelected sel f rest (i + 1)

/-- Shared shape of all fourteen property setters:
`this._getActiveCascades().forEach((cascade) => ...)`, with `forceAll`
defaulted to `true` at the call site. -/
def forEachActiveCascade (st : CSMShadowGenerator) (f : Cascade → Cascade) :
    CSMShadowGenerator :=
  { st with cascades := applySelected (st.getActiveCascades true) f st.cascades 0 }

/-- Setter `bias`. -/
def set_bias (st : CSMShadowGenerator) (bias : ℝ) : CSMShadowGenerator :=
  st.forEachActiveCascade (fun c => { c with generator := { c.generator with bias := bias } })

/-- Setter `normalBias`. -/
def set_normalBias (st : CSMShadowGenerator) (normalBias : ℝ) : CSMShadowGenerator :=
  st.forEachActiveCascade (fun c => { c with generator := { c.generator with normalBias := normalBias } })

/-- Setter `blurBoxOffset`. -/
def set_blurBoxOffset (st : CSMShadowGenerator) (value : ℝ) : CSMShadowGenerator :=
  st.forEachActiveCascade (fun c => { c with generator := { c.generator with blurBoxOffset := value } })

/-- Setter `blurScale`. -/
def set_blurScale (st : CSMShadowGenerator) (value : ℝ) : CSMShadowGenerator :=
  st.forEachActiveCascade (fun c => { c with generator := { c.generator with blurScale := value } })

/-- Setter `blurKernel`. -/
def set_blurKernel (st : CSMShadowGenerator) (value : ℝ) : CSMShadowGenerator :=
  st.forEachActiveCascade (fun c => { c with generator := { c.generator with blurKernel := value } })

/-- Setter `useKernelBlur`. -/
def set_useKernelBlur (st : CSMShadowGenerator) (value : Bool) : CSMShadowGenerator :=
  st.forEachActiveCascade (fun c => { c with generator := { c.generator with useKernelBlur := value } })

/-- Setter `depthScale`. -/
def set_depthScale (st : CSMShadowGenerator) (value : ℝ) : CSMShadowGenerator :=
  st.forEachActiveCascade (fun c => { c with generator := { c.generator with depthScale := value } })

/-- Setter `filter`. -/
def set_filter (st : CSMShadowGenerator) (value : ℝ) : CSMShadowGenerator :=
  st.forEachActiveCascade (fun c => { c with generator := { c.generator with filter := value } })

/-- Setter `filteringQuality`. -/
def set_filteringQuality (st : CSMShadowGenerator) (filteringQuality : ℝ) : CSMShadowGenerator :=
  st.forEachActiveCascade (fun c => { c with generator := { c.generator with filteringQuality := filteringQuality } })

/-- Setter `contactHardeningLightSizeUVRatio`. -/
def set_contactHardeningLightSizeUVRatio (st : CSMShadowGenerator) (value : ℝ) : CSMShadowGenerator :=
  st.forEachActiveCascade (fun c => { c with generator := { c.generator with contactHardeningLightSizeUVRatio := value } })

/-- Setter `darkness`. -/
def set_darkness (st : CSMShadowGenerator) (value : ℝ) : CSMShadowGenerator :=
  st.forEachActiveCascade (fun c => { c with generator := { c.generator with darkness := value } })

/-- Setter `transparencyShadow`. -/
def set_transparencyShadow (st : CSMShadowGenerator) (value : Bool) : CSMShadowGenerator :=
  st.forEachActiveCascade (fun c => { c with generator := { c.generator with transparencyShadow := value } })

/-- Setter `forceBackFacesOnly`. -/
def set_forceBackFacesOnly (st : CSMShadowGenerator) (value : Bool) : CSMShadowGenerator :=
  st.forEachActiveCascade (fun c => { c with generator := { c.generator with forceBackFacesOnly := value } })

/-- Setter `depthClamp`. -/
def set_depthClamp (st : CSMShadowGenerator) (value : Bool) : CSMShadowGenerator :=
  st.forEachActiveCascade (fun c => { c with generator := { c.generator with depthClamp := value } })

/-- The conditional `_activeCascade >= 0 && _activeCascade < _cascades.length`
shared by every per-cascade getter, returning the selected in-range index. -/
def activeIndex? (st : CSMShadowGenerator) : Option (Fin st.cascades.length) :=
  if h : 0 ≤ st.activeCascade ∧ st.activeCascade < (st.cascades.length : ℤ) then
    some ⟨st.activeCascade.toNat, by omega⟩
  else none

/-- Getter `cascade`: the active cascade, or `null`. -/
def cascade (st : CSMShadowGenerator) : Option Cascade :=
  (st.activeIndex?).map (fun i => st.cascades.get i)

/-- Getter `viewMatrix`: the active cascade's generator view matrix, or `null`. -/
def viewMatrix (st : CSMShadowGenerator) : Option ℕ :=
  (st.activeIndex?).map (fun i => (st.cascades.get i).generator.viewMatrix)

/-- Getter `bias` (sentinel -1 when no cascade is active). -/
def get_bias (st : CSMShadowGenerator) : ℝ :=
  match st.activeIndex? with
  | some i => (st.cascades.get i).generator.bias
  | none => -1

/-- Getter `normalBias`. -/
def get_normalBias (st : CSMShadowGenerator) : ℝ :=
  match st.activeIndex? with
  | some i => (st.cascades.get i).generator.normalBias
  | none => -1

/-- Getter `blurBoxOffset`. -/
def get_blurBoxOffset (st : CSMShadowGenerator) : ℝ :=
  match st.activeIndex? with
  | some i => (st.cascades.get i).generator.blurBoxOffset
  | none => -1

/-- Getter `blurScale`. -/
def get_blurScale (st : CSMShadowGenerator) : ℝ :=
  match st.activeIndex? with
  | some i => (st.cascades.get i).generator.blurScale
  | none => -1

/-- Getter `blurKernel`. -/
def get_blurKernel (st : CSMShadowGenerator) : ℝ :=
  match st.activeIndex? with
  | some i => (st.cascades.get i).generator.blurKernel
  | none => -1

/-- Getter `useKernelBlur` (sentinel `false`). -/
def get_useKernelBlur (st : CSMShadowGenerator) : Bool :=
  match st.activeIndex? with
  | some i => (st.cascades.get i).generator.useKernelBlur
  | none => false

/-- Getter `depthScale`. -/
def get_depthScale (st : CSMShadowGenerator) : ℝ :=
  match st.activeIndex? with
  | some i => (st.cascades.get i).generator.depthScale
  | none => -1

/-- Getter `filter`. -/
def get_filter (st : CSMShadowGenerator) : ℝ :=
  match st.activeIndex? with
  | some i => (st.cascades.get i).generator.filter
  | none => -1

/-- Getter `filteringQuality`. -/
def get_filteringQuality (st : CSMShadowGenerator) : ℝ :=
  match st.activeIndex? with
  | some i => (st.cascades.get i).generator.filteringQuality
  | none => -1

/-- Getter `contactHardeningLightSizeUVRatio`. -/
def get_contactHardeningLightSizeUVRatio (st : CSMShadowGenerator) : ℝ :=
  match st.activeIndex? with
  | some i => (st.cascades.get i).generator.contactHardeningLightSizeUVRatio
  | none => -1

/-- Getter `darkness`. -/
def get_darkness (st : CSMShadowGenerator) : ℝ :=
  match st.activeIndex? with
  | some i => (st.cascades.get i).generator.darkness
  | none => -1

/-- Getter `transparencyShadow` (sentinel `false`). -/
def get_transparencyShadow (st : CSMShadowGenerator) : Bool :=
  match st.activeIndex? with
  | some i => (st.cascades.get i).generator.transparencyShadow
  | none => false

/-- Getter `forceBackFacesOnly` (sentinel `false`). -/
def get_forceBackFacesOnly (st : CSMShadowGenerator) : Bool :=
  match st.activeIndex? with
  | some i => (st.cascades.get i).generator.forceBackFacesOnly
  | none => false

/-- Getter `depthClamp` (sentinel `false`). -/
def get_depthClamp (st : CSMShadowGenerator) : Bool :=
  match st.activeIndex? with
  | some i => (st.cascades.get i).generator.depthClamp
  | none => false

/-- Method `addShadowCaster(mesh, includeDescendants)`: appends the mesh and,
when requested, all its descendant meshes, to the shared render list.
The source defaults `includeDescendants` to `true`. -/
def addShadowCaster (st : CSMShadowGenerator) (mesh : Mesh) (includeDescendants : Bool) :
    CSMShadowGenerator :=
  let rl := st.renderList ++ [mesh]
  { st with renderList := if includeDescendants then rl ++ mesh.getChildMeshes else rl }

mutual

/-- Method `removeShadowCaster(mesh, includeDescendants)`: removes the first
occurrence of the mesh (`indexOf` + `splice`), then recurses into the direct
children when requested (each recursive call uses the default `true`). -/
def removeShadowCaster (st : CSMShadowGenerator) (mesh : Mesh)
    (includeDescendants : Bool) : CSMShadowGenerator :=
  match mesh with
  | .mk _ cs =>
    let st2 := { st with renderList := st.renderList.erase mesh }
    if includeDescendants then removeShadowCasterChildren st2 cs else st2

/-- The `for (let child of mesh.getChildren())` recursion of
`removeShadowCaster`. -/
def removeShadowCasterChildren (st : CSMShadowGenerator) :
    List Mesh → CSMShadowGenerator
  | [] => st
  | c :: rest => removeShadowCasterChildren (removeShadowCaster st c true) rest

end

/-- Getter `mustRender`: true iff the render list is non-empty. -/
def mustRender (st : CSMShadowGenerator) : Bool :=
  decide (0 < st.renderList.length)

/-- Method `dispose()`: disposes every cascade renderer (a GPU-side effect
outside this model), empties the cascade list, zeroes `numCascades`, and
removes the bounding-info observer if attached. -/
def dispose (st : CSMShadowGenerator) : CSMShadowGenerator :=
  { st with cascades := [], numCascades := 0, freezeObserverAttached := false }

/-- Setter `freezeShadowCastersBoundingInfo`: (de)registers the per-frame
recompute observer and stores the flag (the immediate bounding-volume
recompute on freeze only touches the external bounding volume). -/
def set_freezeShadowCastersBoundingInfo (st : CSMShadowGenerator) (freeze : Bool) :
    CSMShadowGenerator :=
  let st1 :=
    if st.freezeObserverAttached ∧ freeze then
      { st with freezeObserverAttached := false }
    else st
  let st2 :=
    if ¬st1.freezeObserverAttached ∧ ¬freeze then
      { st1 with freezeObserverAttached := true }
    else st1
  { st2 with freezeShadowCastersBoundingInfo := freeze }

/-- Method `_initializeCSM()`: pushes `numCascades` fresh cascades (each with
a new `CSMShadowMap`, abstracted by `newShadowMap`), clamps a stale
`activeCascade`, and computes the initial splits. -/
def initializeCSM (st : CSMShadowGenerator) (newShadowMap : ℕ → CSMShadowMap) :
    CSMShadowGenerator :=
  let newCascades : List Cascade :=
    (List.range st.numCascades.toNat).map
      (fun i => { generator := newShadowMap i, prevSplitDistance := 0, splitDistance := 0 })
  let st1 := { st with cascades := st.cascades ++ newCascades }
  let st2 :=
    if st1.activeCascade ≠ CASCADE_ALL ∧ st1.numCascades ≤ st1.activeCascade then
      { st1 with activeCascade := 0 }
    else st1
  setDistanceSplit st2

/-- The constructor: coerces `numCascades < 1` to 1, initialises every field
(`activeCascade = CASCADE_ALL`, `lambda = 0.7`, `minDistance = 0`,
`maxDistance = 1`, empty caster list), attaches the bounding-info observer
via `freezeShadowCastersBoundingInfo = false`, and runs `_initializeCSM`.
The external `CSMShadowMap` constructor is abstracted by `newShadowMap`. -/
def create (numCascades : ℤ) (newShadowMap : ℕ → CSMShadowMap)
    (sceneShadowsEnabled lightShadowEnabled lightNeedCube : Bool)
    (camera : Option Camera) (lightDepthMinZ lightDepthMaxZ : ℝ) :
    CSMShadowGenerator :=
  let n := if numCascades < 1 then 1 else numCascades
  let st : CSMShadowGenerator :=
    { activeCascade := CASCADE_ALL
      numCascades := n
      lambda := 0.7
      minDistance := 0
      maxDistance := 1
      stabilizeCascades := false
      useRightDirectionAsUpForOrthoProj := false
      freezeShadowCastersBoundingInfo := false
      freezeObserverAttached := false
      debug := false
      cascades := []
      renderList := []
      sceneShadowsEnabled := sceneShadowsEnabled
      lightShadowEnabled := lightShadowEnabled
      lightNeedCube := lightNeedCube
      camera := camera
      lightDepthMinZ := lightDepthMinZ
      lightDepthMaxZ := lightDepthMaxZ
      lightMatrices := List.replicate (n.toNat * 16) 0
      samplers := List.replicate n.toNat none
      cascadeDepths := List.replicate n.toNat 0 }
  initializeCSM (st.set_freezeShadowCastersBoundingInfo false) newShadowMap

/-- Method `prepareDefines(defines, lightIndex)`: a no-op when shadows are
disabled on the scene or the light or there is no cascade; otherwise runs
cascade 0's `prepareDefines` (abstract) and injects the three `SHADOWCSM`
defines. -/
def prepareDefines (st : CSMShadowGenerator) (defines : Defines) (lightIndex : ℤ) :
    Defines :=
  if st.sceneShadowsEnabled = false ∨ st.lightShadowEnabled = false ∨
      st.cascades.length < 1 then
    defines
  else
    match st.cascades.head? with
    | none => defines
    | some master =>
      (((master.generator.prepareDefinesImpl defines lightIndex).set
          ("SHADOWCSM" ++ toString lightIndex) (.b true)).set
        ("SHADOWCSM" ++ toString lightIndex ++ "_NUMCASCADES") (.n st.numCascades)).set
        ("SHADOWCSM" ++ toString lightIndex ++ "_DEBUG") (.b st.debug)

/-- Mutable buffers threaded through the per-cascade loop of
`bindShadowLight`, plus the commands emitted so far. -/
structure BindAccum where
  lightMatrices : List ℕ
  samplers : List (Option ℕ)
  cascadeDepths : List ℝ
  commands : List EffectCommand

/-- The per-cascade loop of `bindShadowLight`: copies each cascade's transform
matrix into the matrix buffer (one handle per cascade stands for the 16-float
block at offset `i*16`), binds its rendering texture (individually for PCF,
into the sampler array otherwise) and stores its world-space split depth. -/
def bindCascadeLoop (lightIndex : String) (masterFilter cameraMinZ cameraRange : ℝ) :
    List Cascade → ℕ → BindAccum → BindAccum
  | [], _, acc => acc
  | c :: rest, i, acc =>
    let acc1 : BindAccum :=
      { acc with lightMatrices := acc.lightMatrices.set i c.generator.transformMatrix }
    let acc2 : BindAccum :=
      if masterFilter = FILTER_PCF then
        { acc1 with commands := acc1.commands ++
            [EffectCommand.setDepthStencilTexture
              ("shadowSampler" ++ lightIndex ++ "_" ++ toString i)
              (c.generator.shadowMapForRendering.map ShadowMapTexture.id)] }
      else
        { acc1 with samplers :=
            acc1.samplers.set i (c.generator.shadowMapForRendering.map ShadowMapTexture.id) }
    let acc3 : BindAccum :=
      { acc2 with cascadeDepths :=
          acc2.cascadeDepths.set i (cameraMinZ + c.splitDistance * cameraRange) }
    bindCascadeLoop lightIndex masterFilter cameraMinZ cameraRange rest (i + 1) acc3

/-- Method `bindShadowLight(lightIndex, effect)`: returns the updated state
and the list of commands written to the shader-binding target.  No-op
(state unchanged, no commands) when shadows are disabled on the scene or the
light, there is no cascade, no active camera, or cascade 0's shadow map is
unavailable. -/
def bindShadowLight (st : CSMShadowGenerator) (lightIndex : String) :
    CSMShadowGenerator × List EffectCommand :=
  if st.sceneShadowsEnabled = false ∨ st.lightShadowEnabled = false ∨
      st.cascades.length < 1 then
    (st, [])
  else
    match st.camera with
    | none => (st, [])
    | some camera =>
      match st.cascades.head? with
      | none => (st, [])
      | some master =>
        match master.generator.shadowMap with
        | none => (st, [])
        | some shadowMap0 =>
          let masterGenerator := master.generator
          let cameraRange := camera.maxZ - camera.minZ
          let acc := bindCascadeLoop lightIndex masterGenerator.filter camera.minZ
            cameraRange st.cascades 0
            { lightMatrices := st.lightMatrices, samplers := st.samplers,
              cascadeDepths := st.cascadeDepths, commands := [] }
          let cmds1 :=
            if st.lightNeedCube = false then
              acc.commands ++ [EffectCommand.setMatrices ("lightMatrix" ++ lightIndex) acc.lightMatrices]
            else acc.commands
          let cmds2 := cmds1 ++ [EffectCommand.setInt ("numCascades" ++ lightIndex) (st.cascades.length : ℤ)]
          let cmds3 :=
            if ¬masterGenerator.filter = FILTER_PCF then
              cmds2 ++ [EffectCommand.setTextureArray ("shadowSampler" ++ lightIndex) acc.samplers]
            else cmds2
          let cmds4 := cmds3 ++ [EffectCommand.setArray ("cascadeSplits" ++ lightIndex) acc.cascadeDepths]
          let shadowsInfo :=
            if masterGenerator.filter = FILTER_PCF then
              EffectCommand.updateFloat4 "shadowsInfo" masterGenerator.darkness
                shadowMap0.width (1 / shadowMap0.width)
                masterGenerator.frustumEdgeFalloff lightIndex
            else if masterGenerator.filter = FILTER_PCSS then
              EffectCommand.updateFloat4 "shadowsInfo" masterGenerator.darkness
                (1 / shadowMap0.width)
                (masterGenerator.contactHardeningLightSizeUVRatio * shadowMap0.width)
                masterGenerator.frustumEdgeFalloff lightIndex
            else
              EffectCommand.updateFloat4 "shadowsInfo" masterGenerator.darkness
                (masterGenerator.blurScale / shadowMap0.width) masterGenerator.depthScale
                masterGenerator.frustumEdgeFalloff lightIndex
          let cmds5 := cmds4 ++ [shadowsInfo] ++
            [EffectCommand.updateFloat2 "depthValues" st.lightDepthMinZ
              (st.lightDepthMinZ + st.lightDepthMaxZ) lightIndex]
          let stOut :=
            { st with
              lightMatrices := acc.lightMatrices
              samplers := acc.samplers
              cascadeDepths := acc.cascadeDepths }
          (stOut, cmds5)

end

end CSMShadowGenerator

/-! ## Concrete states used by the witnesses -/

noncomputable section

/-- A concrete per-cascade renderer state. -/
def sampleShadowMap : CSMShadowMap :=
  { bias := 0, normalBias := 0, blurBoxOffset := 0, blurScale := 2, blurKernel := 1
    useKernelBlur := false, depthScale := 0, filter := 0, filteringQuality := 0
    contactHardeningLightSizeUVRatio := 0, darkness := 0, transparencyShadow := false
    forceBackFacesOnly := false, depthClamp := false, frustumEdgeFalloff := 0
    viewMatrix := 0, transformMatrix := 0
    shadowMap := some { id := 0, width := 1024 }
    shadowMapForRendering := some { id := 0, width := 1024 }
    prepareDefinesImpl := fun d _ => d }

/-- A concrete cascade. -/
def sampleCascade : Cascade :=
  { generator := sampleShadowMap, prevSplitDistance := 0, splitDistance := 0 }

/-- A concrete two-cascade generator state with an active camera
(near 1, far 2), `lambda = 0`, `minDistance = 0`, `maxDistance = 1`. -/
def sampleGenerator : CSMShadowGenerator :=
  { activeCascade := CASCADE_ALL, numCascades := 2
    lambda := 0, minDistance := 0, maxDistance := 1
    stabilizeCascades := false, useRightDirectionAsUpForOrthoProj := false
    freezeShadowCastersBoundingInfo := false, freezeObserverAttached := true
    debug := false
    cascades := [sampleCascade, sampleCascade]
    renderList := []
    sceneShadowsEnabled := true, lightShadowEnabled := true, lightNeedCube := false
    camera := some { minZ := 1, maxZ := 2 }
    lightDepthMinZ := 0, lightDepthMaxZ := 1
    lightMatrices := [0, 0], samplers := [none, none], cascadeDepths := [0, 0] }

end

/-! ## Helper lemmas -/

theorem applySelected_range (f : Cascade → Cascade) :
    ∀ (l : List Cascade) (i n : ℕ), i + l.length ≤ n →
      CSMShadowGenerator.applySelected (List.range n) f l i = l.map f
  | [], _, _, _ => rfl
  | c :: rest, i, n, h => by
    have hi : i ∈ List.range n := List.mem_range.mpr (by simp at h; omega)
    have hrest : (i + 1) + rest.length ≤ n := by simp at h; omega
    simp only [CSMShadowGenerator.applySelected, if_pos hi, List.map_cons,
      applySelected_range f rest (i + 1) n hrest]

/-- With the source's `forceAll = true` default, every property setter
rewrites every cascade. -/
theorem forEachActiveCascade_eq_map (st : CSMShadowGenerator) (f : Cascade → Cascade) :
    st.forEachActiveCascade f = { st with cascades := st.cascades.map f } := by
  unfold CSMShadowGenerator.forEachActiveCascade CSMShadowGenerator.getActiveCascades
  rw [if_pos (Or.inr rfl)]
  rw [applySelected_range f st.cascades 0 st.cascades.length (by omega)]

theorem activeIndex?_eq_none (st : CSMShadowGenerator)
    (h : st.activeCascade = CASCADE_ALL) : st.activeIndex? = none := by
  unfold CSMShadowGenerator.activeIndex?
  rw [dif_neg]
  rw [h]
  unfold CASCADE_ALL
  omega

theorem setDistanceSplit_activeCascade (st : CSMShadowGenerator) :
    (st.setDistanceSplit).activeCascade = st.activeCascade := by
  unfold CSMShadowGenerator.setDistanceSplit
  split <;> rfl

/-! ## Claim theorems -/

/-- C8: `addShadowCaster(mesh, false)` followed by
`removeShadowCaster(mesh, false)` leaves the caster list content-equal as a
multiset to its prior state, for every caster list and every mesh. -/
theorem addRemove_shadowCaster_restores (st : CSMShadowGenerator) (m : Mesh) :
    Multiset.ofList (((st.addShadowCaster m false).removeShadowCaster m false).renderList) =
      Multiset.ofList st.renderList := by
  have hrl : ((st.addShadowCaster m false).removeShadowCaster m false).renderList =
      ((st.renderList ++ [m]).erase m) := by
    cases m with
    | mk i cs =>
      simp [CSMShadowGenerator.addShadowCaster, CSMShadowGenerator.removeShadowCaster]
  rw [hrl, Multiset.coe_eq_coe]
  exact erase_append_singleton_perm st.renderList m

/-- C2 counterexample: `dispose()` does not clear the caster list, so on a
generator that had a shadow caster added (and never removed), `mustRender`
still returns `true` after `dispose()`. -/
theorem dispose_mustRender_counterexample :
    ((sampleGenerator.addShadowCaster (Mesh.mk 0 []) false).dispose).mustRender = true := by
  decide

/-- C2 (amended): for every generator state, after `dispose()` the
`numCascades` field reads 0 and the caster list is left untouched, so
`mustRender` returns `false` after `dispose()` exactly when the caster list
was already empty before the call (in particular when no caster was ever
added, or all were removed) — and conversely still returns `true` whenever
casters remain in the list. -/
theorem dispose_numCascades_mustRender (st : CSMShadowGenerator) :
    (st.dispose).numCascades = 0 ∧ (st.dispose).renderList = st.renderList ∧
      ((st.dispose).mustRender = false ↔ st.renderList = []) := by
  refine ⟨rfl, rfl, ?_⟩
  simp [CSMShadowGenerator.mustRender, CSMShadowGenerator.dispose,
    List.length_eq_zero]

/-- C4 counterexample: on a disposed generator (`numCascades = 0`, a state
reachable from any constructed generator), writing 5 through the
`activeCascade` setter stores 0, which is neither the `CASCADE_ALL` sentinel
nor inside `[0, numCascades)`. -/
theorem activeCascade_setter_counterexample :
    ¬((((sampleGenerator.dispose).set_activeCascade 5).activeCascade = CASCADE_ALL) ∨
      (0 ≤ ((sampleGenerator.dispose).set_activeCascade 5).activeCascade ∧
        ((sampleGenerator.dispose).set_activeCascade 5).activeCascade <
          ((sampleGenerator.dispose).set_activeCascade 5).numCascades)) := by
  decide

/-- C4 (amended): on every generator with at least one cascade slot
(`numCascades ≥ 1`, which holds from construction until `dispose`), any value
written through the `activeCascade` setter leaves `activeCascade` equal to
the `CASCADE_ALL` sentinel or inside `[0, numCascades)`; moreover any write
of a value `≥ numCascades`, or negative but distinct from the sentinel,
stores an effective index of 0. -/
theorem activeCascade_setter_invariant_amended (st : CSMShadowGenerator) (index : ℤ)
    (h : 1 ≤ st.numCascades) :
    (((st.set_activeCascade index).activeCascade = CASCADE_ALL) ∨
      (0 ≤ (st.set_activeCascade index).activeCascade ∧
        (st.set_activeCascade index).activeCascade <
          (st.set_activeCascade index).numCascades)) ∧
    ((st.numCascades ≤ index ∨ (index < 0 ∧ index ≠ CASCADE_ALL)) →
      (st.set_activeCascade index).activeCascade = 0) := by
  unfold CSMShadowGenerator.set_activeCascade
  unfold CASCADE_ALL
  by_cases hc : index ≠ (-1 : ℤ) ∧ (index < 0 ∨ st.numCascades ≤ index)
  · rw [if_pos hc]
    exact ⟨Or.inr ⟨le_refl 0, h⟩, fun _ => rfl⟩
  · rw [if_neg hc]
    push_neg at hc
    refine ⟨?_, ?_⟩
    · show index = -1 ∨ (0 ≤ index ∧ index < st.numCascades)
      by_cases hall : index = -1
      · exact Or.inl hall
      · exact Or.inr (hc hall)
    · intro hbad
      show index = 0
      exfalso
      by_cases hall : index = -1
      · rcases hbad with hbad1 | hbad1
        · omega
        · exact hbad1.2 hall
      · rcases hc hall with ⟨h0, h1⟩
        rcases hbad with hbad1 | hbad1 <;> omega

theorem activeCascade_setter_invariant_amended_witness :
    1 ≤ sampleGenerator.numCascades ∧
      ((sampleGenerator.set_activeCascade 5).activeCascade = CASCADE_ALL ∨
        (0 ≤ (sampleGenerator.set_activeCascade 5).activeCascade ∧
          (sampleGenerator.set_activeCascade 5).activeCascade <
            (sampleGenerator.set_activeCascade 5).numCascades)) :=
  ⟨by decide, (activeCascade_setter_invariant_amended sampleGenerator 5 (by decide)).1⟩

/-- C5: every per-cascade property setter writes its value into every
cascade's renderer, whatever the current `activeCascade` selection, because
`_getActiveCascades` is called with its `forceAll` parameter defaulted to
`true`. -/
theorem setters_broadcast_to_all_cascades (st : CSMShadowGenerator) (v : ℝ) (b : Bool) :
    (st.set_bias v).cascades = st.cascades.map (fun c => { c with generator := { c.generator with bias := v } }) ∧
    (st.set_normalBias v).cascades = st.cascades.map (fun c => { c with generator := { c.generator with normalBias := v } }) ∧
    (st.set_blurBoxOffset v).cascades = st.cascades.map (fun c => { c with generator := { c.generator with blurBoxOffset := v } }) ∧
    (st.set_blurScale v).cascades = st.cascades.map (fun c => { c with generator := { c.generator with blurScale := v } }) ∧
    (st.set_blurKernel v).cascades = st.cascades.map (fun c => { c with generator := { c.generator with blurKernel := v } }) ∧
    (st.set_useKernelBlur b).cascades = st.cascades.map (fun c => { c with generator := { c.generator with useKernelBlur := b } }) ∧
    (st.set_depthScale v).cascades = st.cascades.map (fun c => { c with generator := { c.generator with depthScale := v } }) ∧
    (st.set_filter v).cascades = st.cascades.map (fun c => { c with generator := { c.generator with filter := v } }) ∧
    (st.set_filteringQuality v).cascades = st.cascades.map (fun c => { c with generator := { c.generator with filteringQuality := v } }) ∧
    (st.set_contactHardeningLightSizeUVRatio v).cascades = st.cascades.map (fun c => { c with generator := { c.generator with contactHardeningLightSizeUVRatio := v } }) ∧
    (st.set_darkness v).cascades = st.cascades.map (fun c => { c with generator := { c.generator with darkness := v } }) ∧
    (st.set_transparencyShadow b).cascades = st.cascades.map (fun c => { c with generator := { c.generator with transparencyShadow := b } }) ∧
    (st.set_forceBackFacesOnly b).cascades = st.cascades.map (fun c => { c with generator := { c.generator with forceBackFacesOnly := b } }) ∧
    (st.set_depthClamp b).cascades = st.cascades.map (fun c => { c with generator := { c.generator with depthClamp := b } }) := by
  refine ⟨?_, ?_, ?_, ?_, ?_, ?_, ?_, ?_, ?_, ?_, ?_, ?_, ?_, ?_⟩ <;>
    simp only [CSMShadowGenerator.set_bias, CSMShadowGenerator.set_normalBias,
      CSMShadowGenerator.set_blurBoxOffset, CSMShadowGenerator.set_blurScale,
      CSMShadowGenerator.set_blurKernel, CSMShadowGenerator.set_useKernelBlur,
      CSMShadowGenerator.set_depthScale, CSMShadowGenerator.set_filter,
      CSMShadowGenerator.set_filteringQuality,
      CSMShadowGenerator.set_contactHardeningLightSizeUVRatio,
      CSMShadowGenerator.set_darkness, CSMShadowGenerator.set_transparencyShadow,
      CSMShadowGenerator.set_forceBackFacesOnly, CSMShadowGenerator.set_depthClamp,
      forEachActiveCascade_eq_map]

/-- C10: whenever `activeCascade` holds the `CASCADE_ALL` sentinel — the
state every constructed generator starts in — each per-cascade getter returns
its unset sentinel (-1 numeric, `false` boolean, `null` for `cascade` and
`viewMatrix`) rather than any cascade's value. -/
theorem cascadeAll_getters_sentinel (st : CSMShadowGenerator)
    (h : st.activeCascade = CASCADE_ALL) :
    st.cascade = none ∧ st.viewMatrix = none ∧
    st.get_bias = -1 ∧ st.get_normalBias = -1 ∧ st.get_blurBoxOffset = -1 ∧
    st.get_blurScale = -1 ∧ st.get_blurKernel = -1 ∧ st.get_useKernelBlur = false ∧
    st.get_depthScale = -1 ∧ st.get_filter = -1 ∧ st.get_filteringQuality = -1 ∧
    st.get_contactHardeningLightSizeUVRatio = -1 ∧ st.get_darkness = -1 ∧
    st.get_transparencyShadow = false ∧ st.get_forceBackFacesOnly = false ∧
    st.get_depthClamp = false ∧
    (∀ (n : ℤ) (f : ℕ → CSMShadowMap) (sse lse lnc : Bool) (cam : Option Camera)
      (dmin dmax : ℝ),
      (CSMShadowGenerator.create n f sse lse lnc cam dmin dmax).activeCascade =
        CASCADE_ALL) := by
  have hidx := activeIndex?_eq_none st h
  refine ⟨?_, ?_, ?_, ?_, ?_, ?_, ?_, ?_, ?_, ?_, ?_, ?_, ?_, ?_, ?_, ?_, ?_⟩
  · simp [CSMShadowGenerator.cascade, hidx]
  · simp [CSMShadowGenerator.viewMatrix, hidx]
  · simp [CSMShadowGenerator.get_bias, hidx]
  · simp [CSMShadowGenerator.get_normalBias, hidx]
  · simp [CSMShadowGenerator.get_blurBoxOffset, hidx]
  · simp [CSMShadowGenerator.get_blurScale, hidx]
  · simp [CSMShadowGenerator.get_blurKernel, hidx]
  · simp [CSMShadowGenerator.get_useKernelBlur, hidx]
  · simp [CSMShadowGenerator.get_depthScale, hidx]
  · simp [CSMShadowGenerator.get_filter, hidx]
  · simp [CSMShadowGenerator.get_filteringQuality, hidx]
  · simp [CSMShadowGenerator.get_contactHardeningLightSizeUVRatio, hidx]
  · simp [CSMShadowGenerator.get_darkness, hidx]
  · simp [CSMShadowGenerator.get_transparencyShadow, hidx]
  · simp [CSMShadowGenerator.get_forceBackFacesOnly, hidx]
  · simp [CSMShadowGenerator.get_depthClamp, hidx]
  · intro n f sse lse lnc cam dmin dmax
    unfold CSMShadowGenerator.create CSMShadowGenerator.initializeCSM
      CSMShadowGenerator.set_freezeShadowCastersBoundingInfo
    rw [setDistanceSplit_activeCascade]
    simp [CASCADE_ALL]

theorem cascadeAll_getters_sentinel_witness :
    sampleGenerator.activeCascade = CASCADE_ALL ∧ sampleGenerator.cascade = none :=
  ⟨rfl, (cascadeAll_getters_sentinel sampleGenerator rfl).1⟩

theorem updateSplits_idem (near far lam minD maxD : ℝ) (n : ℤ) :
    ∀ (l : List Cascade) (i : ℕ),
      CSMShadowGenerator.updateSplits near far lam minD maxD n
        (CSMShadowGenerator.updateSplits near far lam minD maxD n l i) i =
        CSMShadowGenerator.updateSplits near far lam minD maxD n l i
  | [], _ => rfl
  | c :: rest, i => by
    simp only [CSMShadowGenerator.updateSplits, List.cons.injEq]
    exact ⟨trivial, updateSplits_idem near far lam minD maxD n rest (i + 1)⟩

/-- Recomputing the splits twice with unchanged parameters changes nothing. -/
theorem setDistanceSplit_idem (st : CSMShadowGenerator) :
    st.setDistanceSplit.setDistanceSplit = st.setDistanceSplit := by
  unfold CSMShadowGenerator.setDistanceSplit
  cases hc : st.camera with
  | none => simp [hc]
  | some cam => simp [hc, updateSplits_idem]

/-- C3 counterexample: on a generator whose splits were computed for
`minDistance = 0` (camera near 1, far 2, two cascades, `lambda = 0`),
assigning `minDistance = 1/2` through its setter leaves the stored
`splitDistance` sequence different from the one the split algorithm yields
for the new parameter values: the setter does not recompute. -/
theorem minDistance_setter_stale_counterexample :
    ((sampleGenerator.setDistanceSplit.set_minDistance (1/2)).cascades.map
        Cascade.splitDistance) ≠
      (((sampleGenerator.setDistanceSplit.set_minDistance (1/2)).setDistanceSplit).cascades.map
        Cascade.splitDistance) := by
  intro hEq
  simp only [CSMShadowGenerator.set_minDistance, CSMShadowGenerator.setDistanceSplit,
    sampleGenerator, sampleCascade, CSMShadowGenerator.updateSplits,
    CSMShadowGenerator.computeSplitDistance, List.map_cons, List.map_nil,
    List.cons.injEq, and_true] at hEq
  norm_num at hEq

/-- C3 (amended): only the `lambda` setter recomputes the split fractions —
after it returns, the cascades hold exactly the values the split algorithm
yields for the new parameters (recomputing again is a no-op); the
`minDistance` and `maxDistance` setters merely store their value and leave
every cascade's `prevSplitDistance`/`splitDistance` unchanged (stale until
`setDistanceSplit` is invoked again, e.g. through the `lambda` setter). -/
theorem distance_setters_recompute_amended (st : CSMShadowGenerator) (v : ℝ) :
    st.set_lambda v = CSMShadowGenerator.setDistanceSplit { st with lambda := v } ∧
    (st.set_lambda v).setDistanceSplit = st.set_lambda v ∧
    (st.set_minDistance v).cascades = st.cascades ∧
    (st.set_minDistance v).minDistance = v ∧
    (st.set_maxDistance v).cascades = st.cascades ∧
    (st.set_maxDistance v).maxDistance = v :=
  ⟨rfl, setDistanceSplit_idem { st with lambda := v }, rfl, rfl, rfl, rfl⟩

/-- C6: `bindShadowLight` emits no command toward the shader-binding target
and leaves the whole state — in particular `_lightMatrices`, `_samplers` and
`_cascadeDepths` — unchanged whenever the scene's shadows-enabled flag is
false, the light's shadow flag is off, there is no cascade, there is no
active camera, or cascade 0's shadow map is unavailable. -/
theorem bindShadowLight_noop (st : CSMShadowGenerator) (lightIndex : String)
    (h : st.sceneShadowsEnabled = false ∨ st.lightShadowEnabled = false ∨
      st.cascades = [] ∨ st.camera = none ∨
      (∃ c, st.cascades.head? = some c ∧ c.generator.shadowMap = none)) :
    st.bindShadowLight lightIndex = (st, []) := by
  unfold CSMShadowGenerator.bindShadowLight
  by_cases hg : st.sceneShadowsEnabled = false ∨ st.lightShadowEnabled = false ∨
      st.cascades.length < 1
  · rw [if_pos hg]
  · rw [if_neg hg]
    push_neg at hg
    rcases h with h | h | h | h | ⟨c0, hc0, hsm⟩
    · exact absurd h hg.1
    · exact absurd h hg.2.1
    · exfalso
      have hlen := hg.2.2
      rw [h] at hlen
      simp at hlen
    · simp only [h]
    · cases hcam : st.camera with
      | none => simp only [hcam]
      | some cam => simp only [hcam, hc0, hsm]

theorem bindShadowLight_noop_witness :
    ({ sampleGenerator with sceneShadowsEnabled := false } : CSMShadowGenerator).bindShadowLight "0" =
      ({ sampleGenerator with sceneShadowsEnabled := false }, []) :=
  bindShadowLight_noop _ "0" (Or.inl rfl)

theorem shadowcsm_base_ne_num (li : ℤ) :
    ("SHADOWCSM" ++ toString li) ≠ ("SHADOWCSM" ++ toString li ++ "_NUMCASCADES") := by
  intro hEq
  have hlen := congrArg String.length hEq
  have h12 : ("_NUMCASCADES" : String).length = 12 := by decide
  simp only [String.length_append] at hlen
  omega

theorem shadowcsm_base_ne_debug (li : ℤ) :
    ("SHADOWCSM" ++ toString li) ≠ ("SHADOWCSM" ++ toString li ++ "_DEBUG") := by
  intro hEq
  have hlen := congrArg String.length hEq
  have h6 : ("_DEBUG" : String).length = 6 := by decide
  simp only [String.length_append] at hlen
  omega

theorem shadowcsm_num_ne_debug (li : ℤ) :
    ("SHADOWCSM" ++ toString li ++ "_NUMCASCADES") ≠
      ("SHADOWCSM" ++ toString li ++ "_DEBUG") := by
  intro hEq
  have hlen := congrArg String.length hEq
  have h12 : ("_NUMCASCADES" : String).length = 12 := by decide
  have h6 : ("_DEBUG" : String).length = 6 := by decide
  simp only [String.length_append] at hlen
  omega

/-- C7: with shadows enabled on the scene and the light and at least one
cascade, `prepareDefines` sets `SHADOWCSM<lightIndex>` to `true`,
`SHADOWCSM<lightIndex>_NUMCASCADES` to `numCascades` and
`SHADOWCSM<lightIndex>_DEBUG` to the debug flag; under any of the disable
conditions it leaves the define table unchanged. -/
theorem prepareDefines_injects (st : CSMShadowGenerator) (d : Defines) (li : ℤ) :
    (st.sceneShadowsEnabled = true → st.lightShadowEnabled = true →
      1 ≤ st.cascades.length →
      ((st.prepareDefines d li) ("SHADOWCSM" ++ toString li) = some (DefineValue.b true) ∧
        (st.prepareDefines d li) ("SHADOWCSM" ++ toString li ++ "_NUMCASCADES") =
          some (DefineValue.n st.numCascades) ∧
        (st.prepareDefines d li) ("SHADOWCSM" ++ toString li ++ "_DEBUG") =
          some (DefineValue.b st.debug))) ∧
    ((st.sceneShadowsEnabled = false ∨ st.lightShadowEnabled = false ∨
        st.cascades.length < 1) →
      st.prepareDefines d li = d) := by
  constructor
  · intro h1 h2 h3
    unfold CSMShadowGenerator.prepareDefines
    have hguard : ¬(st.sceneShadowsEnabled = false ∨ st.lightShadowEnabled = false ∨
        st.cascades.length < 1) := by
      simp [h1, h2]
      intro hnil
      rw [hnil] at h3
      simp at h3
    rw [if_neg hguard]
    obtain ⟨master, rest, hm⟩ : ∃ m r, st.cascades = m :: r := by
      cases hcs : st.cascades with
      | nil => rw [hcs] at h3; simp at h3
      | cons a b => exact ⟨a, b, rfl⟩
    simp only [hm, List.head?_cons]
    refine ⟨?_, ?_, ?_⟩
    · simp [Defines.set, shadowcsm_base_ne_num li, shadowcsm_base_ne_debug li]
    · simp [Defines.set, shadowcsm_num_ne_debug li]
    · simp [Defines.set]
  · intro hdis
    unfold CSMShadowGenerator.prepareDefines
    rw [if_pos hdis]

/-- An empty define table. -/
def sampleDefines : Defines := fun _ => none

/-- A concrete three-cascade generator state. -/
noncomputable def sampleGenerator3 : CSMShadowGenerator :=
  { sampleGenerator with
    numCascades := 3
    cascades := [sampleCascade, sampleCascade, sampleCascade] }

theorem prepareDefines_injects_witness :
    ((sampleGenerator3.prepareDefines sampleDefines 0)
        ("SHADOWCSM" ++ toString (0 : ℤ) ++ "_NUMCASCADES") = some (DefineValue.n 3)) ∧
      (({ sampleGenerator with sceneShadowsEnabled := false } :
          CSMShadowGenerator).prepareDefines sampleDefines 0 = sampleDefines) :=
  ⟨((prepareDefines_injects sampleGenerator3 sampleDefines 0).1 rfl rfl
      (by decide)).2.1,
    (prepareDefines_injects _ sampleDefines 0).2 (Or.inl rfl)⟩

theorem stepDefine_eq_LAST_iff (a b : ℕ) :
    MinMaxReducer.stepDefine a b = ReductionDefine.LAST ↔ (a = 1 ∧ b = 1) := by
  unfold MinMaxReducer.stepDefine
  split
  · simp_all
  · split <;> simp_all

theorem stepDefine_oneBeforeLast (a b : ℕ)
    (h : (a = 1 ∧ b ≠ 1) ∨ (a ≠ 1 ∧ b = 1)) :
    MinMaxReducer.stepDefine a b = ReductionDefine.ONEBEFORELAST := by
  unfold MinMaxReducer.stepDefine
  rcases h with ⟨h1, h2⟩ | ⟨h1, h2⟩
  · rw [if_neg (by simp [h1, h2]), if_pos (Or.inl h1)]
  · rw [if_neg (by simp [h1, h2]), if_pos (Or.inr h2)]

/-- C9 counterexample: for a 1×1 source texture (render width and height both
1, satisfying `w ≥ 1`, `h ≥ 1`), the pass-construction loop builds no pass at
all, so the pass list consists of the initial pass only and no pass is tagged
`LAST` — refuting "the final pass has dimensions 1x1 and is the only one
tagged LAST". -/
theorem setSourceTexture_1x1_counterexample :
    MinMaxReducer.buildReductionSteps 1 1 = [] ∧
      ∀ p ∈ MinMaxReducer.setSourceTextureSteps 1 1 false,
        p.define ≠ ReductionDefine.LAST := by
  have hempty : MinMaxReducer.buildReductionSteps 1 1 = [] := by
    rw [MinMaxReducer.buildReductionSteps]
    norm_num
  refine ⟨hempty, ?_⟩
  intro p hp
  rw [MinMaxReducer.setSourceTextureSteps, hempty] at hp
  rcases List.mem_cons.mp hp with h1 | h2
  · subst h1
    simp
  · exact absurd h2 (List.not_mem_nil p)

/-- C9 (amended): for every source texture with render width `w ≥ 1` and
height `h ≥ 1` that is not already 1×1, the pass-construction loop of
`MinMaxReducer.setSourceTexture` terminates with a non-empty finite chain of
reduction passes whose dimensions halve (`w := max(round(w/2), 1)`) at each
step, starting from the source dimensions of the initial pass; the final pass
has dimensions 1×1 and is the only one tagged `LAST`, and every pass where
exactly one dimension has reached 1 is tagged `ONEBEFORELAST`.  (For a 1×1
source the loop builds no pass and there is no `LAST`-tagged pass.) -/
theorem setSourceTexture_passes_amended (w h : ℕ) (dr : Bool)
    (hw : 1 ≤ w) (hh : 1 ≤ h) (hbig : 1 < w ∨ 1 < h) :
    MinMaxReducer.buildReductionSteps w h ≠ [] ∧
    (MinMaxReducer.buildReductionSteps w h).getLast? =
      some { width := 1, height := 1, define := ReductionDefine.LAST } ∧
    ((MinMaxReducer.buildReductionSteps w h).filter
        (fun p => p.define = ReductionDefine.LAST)).length = 1 ∧
    (∀ p ∈ MinMaxReducer.buildReductionSteps w h,
      (p.define = ReductionDefine.LAST ↔ (p.width = 1 ∧ p.height = 1))) ∧
    (∀ p ∈ MinMaxReducer.buildReductionSteps w h,
      ((p.width = 1 ∧ p.height ≠ 1) ∨ (p.width ≠ 1 ∧ p.height = 1)) →
        p.define = ReductionDefine.ONEBEFORELAST) ∧
    List.Chain' (fun p q => q.width = MinMaxReducer.halveDim p.width ∧
        q.height = MinMaxReducer.halveDim p.height)
      (MinMaxReducer.setSourceTextureSteps w h dr) := by
  have hlast := MinMaxReducer.buildReductionSteps_getLast w h hw hh hbig
  refine ⟨?_, hlast, ?_, ?_, ?_, MinMaxReducer.setSourceTextureSteps_chain w h dr⟩
  · intro hnil
    rw [hnil] at hlast
    simp at hlast
  · have hcount := MinMaxReducer.buildReductionSteps_count_LAST w h hw hh
    rw [if_pos hbig] at hcount
    exact hcount
  · intro p hp
    have hdef := MinMaxReducer.buildReductionSteps_define w h p hp
    rw [hdef.1]
    exact stepDefine_eq_LAST_iff p.width p.height
  · intro p hp hone
    have hdef := MinMaxReducer.buildReductionSteps_define w h p hp
    rw [hdef.1]
    exact stepDefine_oneBeforeLast p.width p.height hone

theorem setSourceTexture_passes_amended_witness :
    MinMaxReducer.buildReductionSteps 4 2 ≠ [] ∧
    (MinMaxReducer.buildReductionSteps 4 2).getLast? =
      some { width := 1, height := 1, define := ReductionDefine.LAST } ∧
    ((MinMaxReducer.buildReductionSteps 4 2).filter
        (fun p => p.define = ReductionDefine.LAST)).length = 1 ∧
    (∀ p ∈ MinMaxReducer.buildReductionSteps 4 2,
      (p.define = ReductionDefine.LAST ↔ (p.width = 1 ∧ p.height = 1))) ∧
    (∀ p ∈ MinMaxReducer.buildReductionSteps 4 2,
      ((p.width = 1 ∧ p.height ≠ 1) ∨ (p.width ≠ 1 ∧ p.height = 1)) →
        p.define = ReductionDefine.ONEBEFORELAST) ∧
    List.Chain' (fun p q => q.width = MinMaxReducer.halveDim p.width ∧
        q.height = MinMaxReducer.halveDim p.height)
      (MinMaxReducer.setSourceTextureSteps 4 2 false) :=
  setSourceTexture_passes_amended 4 2 false (by decide) (by decide) (by decide)

/-- A convex blend `lam * (X - U) + U` of two values from an interval stays
in the interval. -/
theorem blend_bounds (m M X U lam : ℝ) (hX1 : m ≤ X) (hX2 : X ≤ M)
    (hU1 : m ≤ U) (hU2 : U ≤ M) (h0 : 0 ≤ lam) (h1 : lam ≤ 1) :
    m ≤ lam * (X - U) + U ∧ lam * (X - U) + U ≤ M := by
  constructor <;> nlinarith

/-- A convex blend `lam * (X - U) + U` is monotone in `(X, U)` jointly. -/
theorem blend_mono (X1 X2 U1 U2 lam : ℝ) (hX : X1 ≤ X2) (hU : U1 ≤ U2)
    (h0 : 0 ≤ lam) (h1 : lam ≤ 1) :
    lam * (X1 - U1) + U1 ≤ lam * (X2 - U2) + U2 := by
  nlinarith

/-- The split fraction of the `setDistanceSplit` formula stays inside
`[minDistance, maxDistance]` for every cascade index `i < numCascades`. -/
theorem computeSplitDistance_mem (near far lam minD maxD : ℝ) (n : ℤ) (i : ℕ)
    (hnear : 0 < near) (hfar : near < far) (hmin0 : 0 ≤ minD) (hminmax : minD ≤ maxD)
    (hlam0 : 0 ≤ lam) (hlam1 : lam ≤ 1) (hn : 1 ≤ n) (hi : (i : ℤ) + 1 ≤ n) :
    minD ≤ CSMShadowGenerator.computeSplitDistance near far lam minD maxD n i ∧
      CSMShadowGenerator.computeSplitDistance near far lam minD maxD n i ≤ maxD := by
  simp only [CSMShadowGenerator.computeSplitDistance]
  have hcr : (0:ℝ) < far - near := sub_pos.mpr hfar
  have hnR : (1:ℝ) ≤ (n:ℝ) := by exact_mod_cast hn
  have hiR : (i:ℝ) + 1 ≤ (n:ℝ) := by exact_mod_cast hi
  set minZ := near + minD * (far - near) with hminZdef
  set maxZ := near + maxD * (far - near) with hmaxZdef
  set p := ((i:ℝ) + 1) / (n:ℝ) with hpdef
  have hminZ : 0 < minZ := by rw [hminZdef]; nlinarith
  have hZle : minZ ≤ maxZ := by rw [hminZdef, hmaxZdef]; nlinarith
  have hp0 : 0 < p := by rw [hpdef]; positivity
  have hp1 : p ≤ 1 := by
    rw [hpdef, div_le_one (by linarith)]
    exact hiR
  have hratio : 1 ≤ maxZ / minZ := (one_le_div hminZ).mpr hZle
  have hrp1 : 1 ≤ (maxZ / minZ) ^ p := by
    calc (1:ℝ) = (maxZ / minZ) ^ (0:ℝ) := (Real.rpow_zero _).symm
    _ ≤ (maxZ / minZ) ^ p := Real.rpow_le_rpow_of_exponent_le hratio hp0.le
  have hrp2 : (maxZ / minZ) ^ p ≤ maxZ / minZ := by
    calc (maxZ / minZ) ^ p ≤ (maxZ / minZ) ^ (1:ℝ) :=
      Real.rpow_le_rpow_of_exponent_le hratio hp1
    _ = maxZ / minZ := Real.rpow_one _
  have hmul : minZ * (maxZ / minZ) = maxZ := by field_simp
  have hlog1 : minZ ≤ minZ * (maxZ / minZ) ^ p := le_mul_of_one_le_right hminZ.le hrp1
  have hlog2 : minZ * (maxZ / minZ) ^ p ≤ maxZ := by
    calc minZ * (maxZ / minZ) ^ p ≤ minZ * (maxZ / minZ) :=
      mul_le_mul_of_nonneg_left hrp2 hminZ.le
    _ = maxZ := hmul
  have huni1 : minZ ≤ minZ + (maxZ - minZ) * p :=
    le_add_of_nonneg_right (mul_nonneg (sub_nonneg.mpr hZle) hp0.le)
  have huni2 : minZ + (maxZ - minZ) * p ≤ maxZ := by
    nlinarith [mul_le_of_le_one_right (sub_nonneg.mpr hZle) hp1]
  have hd := blend_bounds minZ maxZ (minZ * (maxZ / minZ) ^ p)
    (minZ + (maxZ - minZ) * p) lam hlog1 hlog2 huni1 huni2 hlam0 hlam1
  constructor
  · rw [le_div_iff hcr]
    have hminZnear : minZ - near = minD * (far - near) := by rw [hminZdef]; ring
    linarith [hd.1]
  · rw [div_le_iff hcr]
    have hmaxZnear : maxZ - near = maxD * (far - near) := by rw [hmaxZdef]; ring
    linarith [hd.2]

/-- The split fraction of the `setDistanceSplit` formula is non-decreasing in
the cascade index. -/
theorem computeSplitDistance_mono (near far lam minD maxD : ℝ) (n : ℤ) (i : ℕ)
    (hnear : 0 < near) (hfar : near < far) (hmin0 : 0 ≤ minD) (hminmax : minD ≤ maxD)
    (hlam0 : 0 ≤ lam) (hlam1 : lam ≤ 1) (hn : 1 ≤ n) :
    CSMShadowGenerator.computeSplitDistance near far lam minD maxD n i ≤
      CSMShadowGenerator.computeSplitDistance near far lam minD maxD n (i + 1) := by
  simp only [CSMShadowGenerator.computeSplitDistance]
  push_cast
  have hcr : (0:ℝ) < far - near := sub_pos.mpr hfar
  have hnR : (1:ℝ) ≤ (n:ℝ) := by exact_mod_cast hn
  set minZ := near + minD * (far - near) with hminZdef
  set maxZ := near + maxD * (far - near) with hmaxZdef
  set p1 := ((i:ℝ) + 1) / (n:ℝ) with hp1def
  set p2 := ((i:ℝ) + 1 + 1) / (n:ℝ) with hp2def
  have hminZ : 0 < minZ := by rw [hminZdef]; nlinarith
  have hZle : minZ ≤ maxZ := by rw [hminZdef, hmaxZdef]; nlinarith
  have hp12 : p1 ≤ p2 :=
    (div_le_div_right (by linarith : (0:ℝ) < (n:ℝ))).mpr (by linarith)
  have hratio : 1 ≤ maxZ / minZ := (one_le_div hminZ).mpr hZle
  have hX12 : minZ * (maxZ / minZ) ^ p1 ≤ minZ * (maxZ / minZ) ^ p2 :=
    mul_le_mul_of_nonneg_left (Real.rpow_le_rpow_of_exponent_le hratio hp12) hminZ.le
  have hU12 : minZ + (maxZ - minZ) * p1 ≤ minZ + (maxZ - minZ) * p2 := by
    nlinarith [mul_le_mul_of_nonneg_left hp12 (sub_nonneg.mpr hZle)]
  rw [div_le_div_right hcr]
  have hblend := blend_mono (minZ * (maxZ / minZ) ^ p1) (minZ * (maxZ / minZ) ^ p2)
    (minZ + (maxZ - minZ) * p1) (minZ + (maxZ - minZ) * p2) lam hX12 hU12 hlam0 hlam1
  linarith [hblend]

theorem updateSplits_get? (near far lam minD maxD : ℝ) (n : ℤ) :
    ∀ (l : List Cascade) (i k : ℕ),
      (CSMShadowGenerator.updateSplits near far lam minD maxD n l i).get? k =
        (l.get? k).map (fun c =>
          { c with
            prevSplitDistance := if i + k = 0 then minD
              else CSMShadowGenerator.computeSplitDistance near far lam minD maxD n (i + k - 1),
            splitDistance :=
              CSMShadowGenerator.computeSplitDistance near far lam minD maxD n (i + k) })
  | [], _, _ => by simp [CSMShadowGenerator.updateSplits]
  | c :: rest, i, 0 => by simp [CSMShadowGenerator.updateSplits]
  | c :: rest, i, (k+1) => by
    simp only [CSMShadowGenerator.updateSplits, List.get?_cons_succ]
    rw [updateSplits_get? near far lam minD maxD n rest (i + 1) k]
    have heq : i + 1 + k = i + (k + 1) := by omega
    rw [heq]

/-- C1: with `0 < near < far`, `0 ≤ minDistance ≤ maxDistance ≤ 1`,
`lambda ∈ [0,1]` and at least one cascade, the `splitDistance` sequence
written by `setDistanceSplit` is non-decreasing, every value lies in
`[minDistance, maxDistance]`, and cascade 0's `prevSplitDistance` equals
`minDistance`. -/
theorem setDistanceSplit_monotone_bounded (st : CSMShadowGenerator) (near far : ℝ)
    (hcam : st.camera = some { minZ := near, maxZ := far })
    (hnear : 0 < near) (hfar : near < far)
    (hmin0 : 0 ≤ st.minDistance) (hminmax : st.minDistance ≤ st.maxDistance)
    (hmax1 : st.maxDistance ≤ 1)
    (hlam0 : 0 ≤ st.lambda) (hlam1 : st.lambda ≤ 1)
    (hn : 1 ≤ st.numCascades)
    (hlen : (st.cascades.length : ℤ) = st.numCascades) :
    (∀ k c, (st.setDistanceSplit).cascades.get? k = some c →
        st.minDistance ≤ c.splitDistance ∧ c.splitDistance ≤ st.maxDistance) ∧
    (∀ k c c2, (st.setDistanceSplit).cascades.get? k = some c →
        (st.setDistanceSplit).cascades.get? (k + 1) = some c2 →
        c.splitDistance ≤ c2.splitDistance) ∧
    (∀ c, (st.setDistanceSplit).cascades.get? 0 = some c →
        c.prevSplitDistance = st.minDistance) := by
  have hset : (st.setDistanceSplit).cascades =
      CSMShadowGenerator.updateSplits near far st.lambda st.minDistance st.maxDistance
        st.numCascades st.cascades 0 := by
    unfold CSMShadowGenerator.setDistanceSplit
    rw [hcam]
  refine ⟨?_, ?_, ?_⟩
  · intro k c hk
    rw [hset, updateSplits_get?] at hk
    obtain ⟨c0, hc0, hfc⟩ := Option.map_eq_some'.mp hk
    obtain ⟨hklt, -⟩ := List.get?_eq_some.mp hc0
    have hkZ : (k : ℤ) + 1 ≤ st.numCascades := by omega
    have hmem := computeSplitDistance_mem near far st.lambda st.minDistance
      st.maxDistance st.numCascades k hnear hfar hmin0 hminmax hlam0 hlam1 hn hkZ
    rw [← hfc]
    simpa using hmem
  · intro k c c2 hk hk2
    rw [hset, updateSplits_get?] at hk hk2
    obtain ⟨c0, hc0, hfc⟩ := Option.map_eq_some'.mp hk
    obtain ⟨c02, hc02, hfc2⟩ := Option.map_eq_some'.mp hk2
    have hmono := computeSplitDistance_mono near far st.lambda st.minDistance
      st.maxDistance st.numCascades k hnear hfar hmin0 hminmax hlam0 hlam1 hn
    rw [← hfc, ← hfc2]
    simpa using hmono
  · intro c h0
    rw [hset, updateSplits_get?] at h0
    obtain ⟨c0, hc0, hfc⟩ := Option.map_eq_some'.mp h0
    rw [← hfc]
    simp

theorem setDistanceSplit_monotone_bounded_witness :
    (∀ k c, (sampleGenerator.setDistanceSplit).cascades.get? k = some c →
        sampleGenerator.minDistance ≤ c.splitDistance ∧
          c.splitDistance ≤ sampleGenerator.maxDistance) ∧
    (∀ k c c2, (sampleGenerator.setDistanceSplit).cascades.get? k = some c →
        (sampleGenerator.setDistanceSplit).cascades.get? (k + 1) = some c2 →
        c.splitDistance ≤ c2.splitDistance) ∧
    (∀ c, (sampleGenerator.setDistanceSplit).cascades.get? 0 = some c →
        c.prevSplitDistance = sampleGenerator.minDistance) :=
  setDistanceSplit_monotone_bounded sampleGenerator 1 2 rfl
    (by norm_num) (by norm_num)
    (by norm_num [sampleGenerator]) (by norm_num [sampleGenerator])
    (by norm_num [sampleGenerator])
    (by norm_num [sampleGenerator]) (by norm_num [sampleGenerator])
    (by decide) (by decide)

end BabylonDev
